import Mathlib

/-!
Verification development for the agriwater marketplace application
(`src/app.py`). The relational store (users, listings, offers) is embedded
as lists of records; each route handler that the claims touch is embedded
as a function from the store (plus an explicit environment standing for the
external payment / signature / telemetry services) to an updated store
and/or a user-visible outcome. SQL `NUMERIC` columns are embedded as `ℚ`,
nullable columns as `Option`.
-/

namespace AgriWater

/-- A row of the `users` table (the columns the verified routes read). -/
structure User where
  id : Nat
  name : String
  email : String
  stripe_account_id : Option String
  annual_allocation : Option ℚ
deriving Repr, DecidableEq

/-- A row of the `listings` table. `status` is `"active"` or `"sold"`. -/
structure Listing where
  id : Nat
  seller_id : Nat
  lease_duration : String
  water_district : String
  amount_af : ℚ
  price_per_af : ℚ
  status : String
deriving Repr, DecidableEq

/-- A row of the `offers` table. -/
structure Offer where
  listing_id : Nat
  buyer_id : Nat
  status : String
deriving Repr, DecidableEq

/-- The relational store. -/
structure Store where
  users : List User
  listings : List Listing
  offers : List Offer
deriving Repr, DecidableEq

/-- `SELECT * FROM listings WHERE id = %s` followed by `fetchone()`. -/
def findListing (s : Store) (listing_id : Nat) : Option Listing :=
  s.listings.find? (fun l => l.id == listing_id)

/-- `SELECT * FROM users WHERE id = %s` followed by `fetchone()`. -/
def findUser (s : Store) (user_id : Nat) : Option User :=
  s.users.find? (fun u => u.id == user_id)

/-! ## Dashboard balance (`dashboard`, src/app.py lines 252-294) -/

/-- `SELECT SUM(amount_af) FROM listings WHERE seller_id = %s AND status = 'sold'`.
SQL `SUM` over an empty row set is `NULL`, embedded as `none`. -/
def sumSold (s : Store) (user_id : Nat) : Option ℚ :=
  let rows := s.listings.filter (fun l => l.seller_id == user_id && l.status == "sold")
  if rows.isEmpty then none else some ((rows.map (·.amount_af)).sum)

/-- `SELECT SUM(l.amount_af) FROM listings l WHERE l.status = 'sold' AND EXISTS
(SELECT 1 FROM offers WHERE offers.listing_id = l.id AND offers.buyer_id = %s
AND offers.status = 'accepted')`; `SUM` of no rows is `NULL` (`none`). -/
def sumPurchased (s : Store) (user_id : Nat) : Option ℚ :=
  let rows := s.listings.filter (fun l =>
    l.status == "sold" &&
      s.offers.any (fun o =>
        o.listing_id == l.id && o.buyer_id == user_id && o.status == "accepted"))
  if rows.isEmpty then none else some ((rows.map (·.amount_af)).sum)

/-- `current_balance = (current_user['annual_allocation'] or 0) - total_sold +
total_purchased`, where each `total` is the query result with `NULL` replaced
by `0` (and Python `x or 0` sends both `None` and `0` to `0`, which on a
numeric column is `Option.getD · 0`). -/
def current_balance (s : Store) (u : User) : ℚ :=
  (u.annual_allocation.getD 0) - (sumSold s u.id).getD 0 + (sumPurchased s u.id).getD 0

/-- Total quantity of the user's sold listings, written directly as a sum
(spec-side formulation, no `NULL` detour). -/
def totalSoldSpec (s : Store) (user_id : Nat) : ℚ :=
  ((s.listings.filter (fun l => l.seller_id == user_id && l.status == "sold")).map
    (·.amount_af)).sum

/-- Total quantity of the sold listings the user purchased, written directly
as a sum (spec-side formulation). -/
def totalPurchasedSpec (s : Store) (user_id : Nat) : ℚ :=
  ((s.listings.filter (fun l =>
    l.status == "sold" &&
      s.offers.any (fun o =>
        o.listing_id == l.id && o.buyer_id == user_id && o.status == "accepted"))).map
    (·.amount_af)).sum

/-- The balance exactly as the claim words it: allocation minus total sold
minus total purchased. -/
def claimedBalance (s : Store) (u : User) : ℚ :=
  (u.annual_allocation.getD 0) - totalSoldSpec s u.id - totalPurchasedSpec s u.id

/-! ## Price arithmetic (`purchase`, src/app.py lines 320-321)

The handler computes
  `total_price = int(float(price_per_af) * float(amount_af) * 100)`
  `application_fee = int(total_price * 0.035)`
in IEEE-754 binary64, truncating each result toward zero with `int(...)`.
Every binary64 value is a rational, so the computation is embedded exactly
over `ℚ`: literals become the exact rational value of their nearest binary64,
each arithmetic operation is followed by `roundB64` (round to nearest
binary64, embedded as rounding to the 53-bit significand grid), and `int` is
`truncQ`. -/

/-- Python `int(x)`: truncation toward zero. -/
def truncQ (x : ℚ) : ℤ := if 0 ≤ x then ⌊x⌋ else ⌈x⌉

/-- Round a rational to the nearest IEEE-754 binary64 value (normal range,
no overflow): the nearest multiple of `2 ^ (e - 52)` where `2 ^ e ≤ |x| <
2 ^ (e + 1)`. Mathlib's `round` breaks ties upward where IEEE breaks them
to even; no computation in this file hits a tie. -/
def roundB64 (x : ℚ) : ℚ :=
  if x = 0 then 0
  else
    let e : ℤ := Int.log 2 |x|
    let scale : ℚ := 2 ^ (52 - e)
    (round (x * scale) : ℤ) / scale

/-- The exact rational value of the binary64 nearest to the source literal
`0.035`: significand `5044031582654956` (the rounding of `0.035 * 2 ^ 57 =
5044031582654955.52`), exponent `-57`. -/
def feeRate64 : ℚ := 5044031582654956 / 2 ^ 57

/-- `int(float(listing['price_per_af']) * float(listing['amount_af']) * 100)`.
The two `float(...)` conversions are the identity whenever the stored
`NUMERIC` values are binary64-representable (they are at every input the
claims evaluate, e.g. `100.00` and `2.5`). -/
def total_price_cents (price_per_af amount_af : ℚ) : ℤ :=
  truncQ (roundB64 (roundB64 (price_per_af * amount_af) * 100))

/-- `int(total_price * 0.035)`: the binary64 product of the integer total
with the binary64 literal `0.035`, truncated toward zero. -/
def application_fee_cents (total_price : ℤ) : ℤ :=
  truncQ (roundB64 ((total_price : ℚ) * feeRate64))

/-! ## Purchase initiation (`purchase`, src/app.py lines 296-333) -/

/-- The external payment platform as seen by one request: `accounts a` is the
result of `stripe.Account.retrieve(a)` (`some b` returns an account with
`charges_enabled = b`; `none` raises), and `checkout_ok` is whether
`stripe.checkout.Session.create` succeeds. -/
structure StripeEnv where
  accounts : String → Option Bool
  checkout_ok : Bool

/-- The parameters of the hosted checkout session the handler creates. -/
structure CheckoutSession where
  unit_amount : ℤ
  application_fee_amount : ℤ
  destination : String
  success_url : String
deriving Repr, DecidableEq

/-- User-visible outcome of the `purchase` route: a flashed error plus
redirect, a redirect to the hosted checkout page, or an unhandled exception
(HTTP 500). -/
inductive PurchaseResult where
  | crash
  | errorRedirect (msg : String) (dest : String)
  | checkoutRedirect (cs : CheckoutSession)
deriving Repr, DecidableEq

/-- Outcome of `purchase` together with whether the checkout-session API
(`stripe.checkout.Session.create`) was invoked. -/
structure PurchaseOutcome where
  result : PurchaseResult
  checkoutApiCalled : Bool
deriving Repr, DecidableEq

/-- The `purchase(listing_id)` handler for a logged-in buyer `buyer_id`
(src/app.py lines 296-333). The Python guard
`if listing and listing['seller_id'] == buyer_id` is split over the match on
the fetched row: when the row is missing the guard is skipped and the very
next line `listing['seller_id']` dereferences `None`, an unhandled
`TypeError` (`crash`); no `status` column is ever consulted. -/
def purchase (s : Store) (env : StripeEnv) (listing_id buyer_id : Nat) :
    PurchaseOutcome :=
  match findListing s listing_id with
  | none => ⟨.crash, false⟩
  | some listing =>
    if listing.seller_id == buyer_id then
      ⟨.errorRedirect "You cannot purchase your own listing." "marketplace", false⟩
    else
      match findUser s listing.seller_id with
      | none => ⟨.crash, false⟩
      | some seller =>
        match seller.stripe_account_id with
        | none =>
          ⟨.errorRedirect "This seller has not yet set up to receive payments."
            "marketplace", false⟩
        | some acct =>
          match env.accounts acct with
          | none =>
            ⟨.errorRedirect "There was an issue verifying the seller account."
              "marketplace", false⟩
          | some charges_enabled =>
            if !charges_enabled then
              ⟨.errorRedirect
                "This seller has not completed their Stripe setup and cannot receive payments yet."
                "marketplace", false⟩
            else
              let total := total_price_cents listing.price_per_af listing.amount_af
              let fee := application_fee_cents total
              if env.checkout_ok then
                ⟨.checkoutRedirect
                  ⟨total, fee, acct,
                    "/purchase_success/" ++ toString listing_id ++ "/" ++
                      toString buyer_id⟩, true⟩
              else
                ⟨.errorRedirect "Could not process payment." "marketplace", true⟩

/-! ## Settlement callback (`purchase_success`, src/app.py lines 335-359) -/

/-- The `purchase_success(listing_id, buyer_id)` handler's effect on the
store. The handler fetches the listing and immediately dereferences it
(`listing['seller_id']`), so a missing listing is an unhandled error
(`none`) before any write. Otherwise it unconditionally runs
`UPDATE listings SET status = 'sold' WHERE id = %s`,
`INSERT INTO offers (listing_id, buyer_id, status) VALUES (%s, %s, 'accepted')`
and commits; the document / signature / email steps that follow the commit
do not touch the store. No `status` guard exists on either statement. -/
def purchase_success (s : Store) (listing_id buyer_id : Nat) : Option Store :=
  match findListing s listing_id with
  | none => none
  | some _ =>
    some { s with
      listings := s.listings.map (fun l =>
        if l.id == listing_id then { l with status := "sold" } else l),
      offers := s.offers ++ [⟨listing_id, buyer_id, "accepted"⟩] }

/-- Number of accepted offer (ledger) rows for a listing. -/
def acceptedOffers (s : Store) (listing_id : Nat) : Nat :=
  (s.offers.filter (fun o => o.listing_id == listing_id && o.status == "accepted")).length

/-! ## Document generation (`create_lease_agreement`, src/app.py lines 50-77) -/

/-- `create_lease_agreement(listing, seller, buyer)`: renders the lease PDF
into an in-memory `FPDF` object and then executes `return None` — the
rendered document is never written out and the function's value is `None`
for every input. The handle type is `Option String` (a file path or
nothing). -/
def create_lease_agreement (_listing : Listing) (_seller _buyer : User) :
    Option String :=
  none

/-- The signature provider as seen by one request: whether the template
upload returns HTTP 201, and whether the subsequent signature request
returns HTTP 201. -/
structure SignEnv where
  upload_created : Bool
  request_created : Bool

/-- Observable behaviour of `send_for_signature` (src/app.py lines 79-103):
whether the upload API was called, and the returned flag. -/
structure SignatureOutcome where
  uploadApiCalled : Bool
  ok : Bool
deriving Repr, DecidableEq

/-- `send_for_signature(pdf_path, seller, buyer)`: if `pdf_path` is `None`
or the API key is unset, prints and returns `False` without any network
call; otherwise uploads the document (abort on non-201) and issues the
signature request. (A Python empty-string path is also falsy; no caller
produces one, so the handle is embedded as `Option String`.) -/
def send_for_signature (pdf_path : Option String) (api_key : Option String)
    (env : SignEnv) : SignatureOutcome :=
  match pdf_path, api_key with
  | none, _ => ⟨false, false⟩
  | some _, none => ⟨false, false⟩
  | some _, some _ =>
    if !env.upload_created then ⟨true, false⟩
    else if env.request_created then ⟨true, true⟩
    else ⟨true, false⟩

/-! ## Telemetry fetch (`get_success_lake_data`, src/app.py lines 105-133) -/

/-- One element of the CDEC JSON time series: `date` and `value` fields,
each possibly absent/null. The sentinel "no data" value is `-9999`. -/
structure Reading where
  date : Option String
  value : Option Int
deriving Repr, DecidableEq

/-- `get_success_lake_data()` as a function of the upstream HTTP response:
`none` stands for a `requests` failure (timeout, connection error, or a
non-2xx status raised by `raise_for_status`), all caught and turned into
`None`; `some data` is the decoded JSON array. The code takes `data[-1]`
(only when `data` is non-empty — `if data:`), reads its `value`, and
returns the `(date, int(value))` pair only when the value is present and
`> -9999`; in every other case it returns `None`. -/
def get_success_lake_data (resp : Option (List Reading)) :
    Option (Option String × Int) :=
  match resp with
  | none => none
  | some data =>
    match data.getLast? with
    | none => none
    | some latest =>
      match latest.value with
      | none => none
      | some v => if v > -9999 then some (latest.date, v) else none

/-- The telemetry behaviour exactly as the claim words it: filter out the
sentinel "no data" values (absent or `≤ -9999`), then return the latest
remaining `(date, value)` reading, or nothing. -/
def claimedLakeData (resp : Option (List Reading)) :
    Option (Option String × Int) :=
  match resp with
  | none => none
  | some data =>
    match (data.filter (fun r =>
        match r.value with | some v => v > -9999 | none => false)).getLast? with
    | none => none
    | some latest => some (latest.date, latest.value.getD 0)

/-! ## Listing edit / delete (src/app.py lines 389-433) -/

/-- A flashed message plus redirect target. -/
structure Flash where
  msg : String
  dest : String
deriving Repr, DecidableEq

/-- User-visible outcome of `edit_listing` on a GET request: either the
generic not-found flash with a redirect to the dashboard, or the rendered
edit form for the fetched row. -/
inductive EditOutcome where
  | notFound (f : Flash)
  | editPage (l : Listing)
deriving Repr, DecidableEq

/-- `SELECT * FROM listings WHERE id = %s AND seller_id = %s` — ownership
is enforced in the WHERE clause (src/app.py line 395 and line 428). -/
def findOwnedListing (s : Store) (listing_id user_id : Nat) : Option Listing :=
  s.listings.find? (fun l => l.id == listing_id && l.seller_id == user_id)

/-- The `edit_listing(listing_id)` handler for logged-in caller `user_id`
(GET; src/app.py lines 389-401, 419-420): a missing row — whether the id
does not exist or the row belongs to someone else — flashes the one generic
message and redirects to the dashboard. -/
def edit_listing (s : Store) (user_id listing_id : Nat) : EditOutcome :=
  match findOwnedListing s listing_id user_id with
  | none =>
    .notFound ⟨"Listing not found or you do not have permission to edit it.",
      "dashboard"⟩
  | some l => .editPage l

/-- The `delete_listing(listing_id)` handler for logged-in caller `user_id`
(src/app.py lines 422-433): runs
`DELETE FROM listings WHERE id = %s AND seller_id = %s`, commits, and
unconditionally flashes the same success message and redirects to the
dashboard. Returns the updated store and the outcome. -/
def delete_listing (s : Store) (user_id listing_id : Nat) : Store × Flash :=
  ({ s with
      listings := s.listings.filter (fun l =>
        !(l.id == listing_id && l.seller_id == user_id)) },
    ⟨"Your listing has been deleted.", "dashboard"⟩)

/-! ## Concrete fixtures used by witnesses and counterexamples -/

/-- A seller with a linked, chargeable payment account and allocation 100. -/
def alice : User := ⟨1, "Alice", "alice@example.com", some "acct_1", some 100⟩

/-- A second user (buyer in the examples). -/
def bob : User := ⟨2, "Bob", "bob@example.com", some "acct_2", some 50⟩

/-- A seller who never linked a payment account. -/
def carol : User := ⟨3, "Carol", "carol@example.com", none, none⟩

/-- A payment platform on which every account has `charges_enabled` and
checkout-session creation succeeds. -/
def exEnv : StripeEnv := ⟨fun _ => some true, true⟩

/-- Store for the balance example: Alice (allocation 100) sold listing 1
(30 AF) and purchased listing 2 (10 AF, sold by Bob, accepted offer
naming Alice as buyer). -/
def balanceStore : Store :=
  ⟨[alice, bob],
   [⟨1, 1, "1 year", "Tulare", 30, 10, "sold"⟩,
    ⟨2, 2, "1 year", "Tulare", 10, 10, "sold"⟩],
   [⟨2, 1, "accepted"⟩]⟩

/-- Store with a single active listing (id 1, seller Alice) and no offers. -/
def settleStore : Store :=
  ⟨[alice, bob], [⟨1, 1, "1 year", "Tulare", 30, 10, "active"⟩], []⟩

/-- Store whose only listing (id 1, seller Alice, 2.5 AF at $100/AF) is
already `sold`, with no offers. -/
def soldStore : Store :=
  ⟨[alice, bob], [⟨1, 1, "1 year", "Tulare", 5 / 2, 100, "sold"⟩], []⟩

/-- Store whose only listing belongs to Carol, who has no payment account. -/
def noAcctStore : Store :=
  ⟨[carol, bob], [⟨1, 3, "1 year", "Tulare", 30, 10, "active"⟩], []⟩

/-- Store for the edit/delete example: one listing (id 2) owned by Bob. -/
def ownershipStore : Store :=
  ⟨[alice, bob], [⟨2, 2, "1 year", "Tulare", 10, 10, "active"⟩], []⟩

/-- A store with no rows at all. -/
def emptyStore : Store := ⟨[], [], []⟩

/-- A telemetry series whose last element is the `-9999` "no data" sentinel
while an earlier element is a valid reading. -/
def exSeries : List Reading :=
  [⟨some "2024-01-01", some 500⟩, ⟨some "2024-01-02", some (-9999)⟩]

/-! ## Helper lemmas -/

theorem int_log2_eq {r : ℚ} {e : ℤ} (h0 : 0 < r)
    (h1 : (2 : ℚ) ^ e ≤ r) (h2 : r < (2 : ℚ) ^ (e + 1)) : Int.log 2 r = e := by
  have hle : e ≤ Int.log 2 r := (Int.zpow_le_iff_le_log (by norm_num) h0).mp h1
  have hlt : Int.log 2 r < e + 1 := (Int.lt_zpow_iff_log_lt (by norm_num) h0).mp h2
  omega

theorem floorQ_eq {r : ℚ} {z : ℤ} (h1 : (z : ℚ) ≤ r) (h2 : r < z + 1) : ⌊r⌋ = z :=
  Int.floor_eq_iff.mpr ⟨h1, h2⟩

theorem roundB64_pos_eq {x y : ℚ} {e : ℤ} (h0 : 0 < x)
    (h1 : (2 : ℚ) ^ e ≤ x) (h2 : x < (2 : ℚ) ^ (e + 1))
    (hy : ((round (x * 2 ^ (52 - e)) : ℤ) : ℚ) / 2 ^ (52 - e) = y) :
    roundB64 x = y := by
  simp only [roundB64, if_neg (ne_of_gt h0), abs_of_pos h0, int_log2_eq h0 h1 h2]
  exact hy

theorem roundB64_250 : roundB64 250 = 250 := by
  apply roundB64_pos_eq (e := 7) (by norm_num) (by norm_num) (by norm_num)
  rw [show (250 : ℚ) * 2 ^ (52 - 7 : ℤ) = ((250 * 2 ^ 45 : ℤ) : ℚ) by norm_num,
    round_intCast]
  norm_num

theorem roundB64_25000 : roundB64 25000 = 25000 := by
  apply roundB64_pos_eq (e := 14) (by norm_num) (by norm_num) (by norm_num)
  rw [show (25000 : ℚ) * 2 ^ (52 - 14 : ℤ) = ((25000 * 2 ^ 38 : ℤ) : ℚ) by norm_num,
    round_intCast]
  norm_num

/-- The binary64 product `25000 * 0.035`: the exact product is
`875 + 12000 / 2 ^ 57`, whose nearest binary64 (significand grid
`2 ^ -43` around `875`) is `875 + 2 ^ -43 = 7696581394432001 / 2 ^ 43`. -/
theorem roundB64_fee_product :
    roundB64 (25000 * feeRate64) = 7696581394432001 / 2 ^ 43 := by
  apply roundB64_pos_eq (e := 9)
  · rw [feeRate64]; norm_num
  · rw [feeRate64]; norm_num
  · rw [feeRate64]; norm_num
  · rw [round_eq, feeRate64, show (52 - 9 : ℤ) = (43 : ℤ) by norm_num,
      floorQ_eq (z := 7696581394432001) (by norm_num) (by norm_num)]
    norm_num

theorem total_price_cents_eval : total_price_cents 100 (5 / 2) = 25000 := by
  rw [total_price_cents, show (100 : ℚ) * (5 / 2) = 250 by norm_num, roundB64_250,
    show (250 : ℚ) * 100 = 25000 by norm_num, roundB64_25000, truncQ,
    if_pos (by norm_num)]
  exact floorQ_eq (by norm_num) (by norm_num)

theorem application_fee_cents_eval : application_fee_cents 25000 = 875 := by
  rw [application_fee_cents, show ((25000 : ℤ) : ℚ) * feeRate64 = 25000 * feeRate64
    by norm_num, roundB64_fee_product, truncQ, if_pos (by norm_num)]
  exact floorQ_eq (by norm_num) (by norm_num)

theorem sum_if_isEmpty_getD (rows : List Listing) :
    ((if rows.isEmpty then none else some ((rows.map (·.amount_af)).sum)) :
      Option ℚ).getD 0 = ((rows.map (·.amount_af)).sum) := by
  cases rows <;> simp

/-! ## Claim theorems -/

/-- Claim C1 (counterexample): the dashboard balance is not
allocation − total sold − total purchased. For Alice (allocation 100,
total sold 30, total purchased 10) the dashboard reports 80, while the
claimed formula yields 60: the handler adds the purchased quantity
(`- total_sold + total_purchased`, src/app.py line 284) instead of
subtracting it. -/
theorem dashboard_balance_claim_counterexample :
    current_balance balanceStore alice = 80 ∧
      claimedBalance balanceStore alice = 60 ∧
      current_balance balanceStore alice ≠ claimedBalance balanceStore alice := by
  refine ⟨?_, ?_, ?_⟩ <;>
    norm_num [current_balance, claimedBalance, sumSold, sumPurchased,
      totalSoldSpec, totalPurchasedSpec, balanceStore, alice]

/-- Claim C1 (amended): for every user, the dashboard's effective balance
equals the annual allocation minus the total quantity of the user's sold
listings plus the total quantity of sold listings the user purchased
(an accepted offer row naming the user as buyer), the empty-sum `NULL`
cases included. -/
theorem dashboard_balance_formula (s : Store) (u : User) :
    current_balance s u =
      u.annual_allocation.getD 0 - totalSoldSpec s u.id + totalPurchasedSpec s u.id := by
  simp only [current_balance, sumSold, sumPurchased, totalSoldSpec,
    totalPurchasedSpec, sum_if_isEmpty_getD]

/-- Claim C2 (code bug): settlement is not idempotent. Invoking
`purchase_success` twice for listing 1 and buyer 2 on a store with one
active listing and no offers leaves the listing `sold` but two accepted
offer (ledger) rows, where the claim requires exactly one: the insert at
src/app.py line 346 runs unconditionally on every invocation. -/
theorem settlement_not_idempotent :
    ((purchase_success settleStore 1 2).bind (fun t => purchase_success t 1 2)).map
        (fun t => (acceptedOffers t 1, (findListing t 1).map Listing.status)) =
      some (2, some "sold") ∧
    (purchase_success settleStore 1 2).map
        (fun t => (acceptedOffers t 1, (findListing t 1).map Listing.status)) =
      some (1, some "sold") := by
  exact ⟨by decide, by decide⟩

/-- Claim C3 (code bug): a listing whose status is not `active` can still be
purchased. On a store whose only listing is already `sold`, `purchase`
checks no status and creates the hosted checkout session, and
`purchase_success` flips the status and inserts an accepted offer row —
neither handler consults the `status` column (src/app.py lines 296-333 and
335-347). -/
theorem sold_listing_still_purchasable :
    (findListing soldStore 1).map Listing.status = some "sold" ∧
    purchase soldStore exEnv 1 2 =
      ⟨.checkoutRedirect ⟨25000, 875, "acct_1", "/purchase_success/1/2"⟩, true⟩ ∧
    (purchase_success soldStore 1 2).map (fun t => acceptedOffers t 1) = some 1 := by
  refine ⟨by decide, ?_, by decide⟩
  rw [show purchase soldStore exEnv 1 2 =
    ⟨.checkoutRedirect ⟨total_price_cents 100 (5 / 2),
      application_fee_cents (total_price_cents 100 (5 / 2)), "acct_1",
      "/purchase_success/1/2"⟩, true⟩ from rfl, total_price_cents_eval,
    application_fee_cents_eval]

/-- Claim C4 (code bug): `create_lease_agreement` renders the document but
returns `None` for every input instead of a non-null handle, so the
e-signature stage — which proceeds only when given a non-null handle —
always skips without any network call. -/
theorem lease_agreement_returns_no_handle (l : Listing) (s b : User)
    (k : Option String) (env : SignEnv) :
    create_lease_agreement l s b = none ∧
      send_for_signature (create_lease_agreement l s b) k env = ⟨false, false⟩ :=
  ⟨rfl, rfl⟩

/-- Claim C5: for every listing whose seller is the buyer in session,
`purchase` flashes the self-purchase error and redirects to the marketplace
without calling the checkout-session API. -/
theorem purchase_rejects_self_purchase (s : Store) (env : StripeEnv)
    (lid bid : Nat) (l : Listing)
    (hfind : findListing s lid = some l) (hself : l.seller_id = bid) :
    purchase s env lid bid =
      ⟨.errorRedirect "You cannot purchase your own listing." "marketplace",
        false⟩ := by
  simp [purchase, hfind, hself]

/-- Witness for C5: Alice attempting to purchase her own listing 1. -/
theorem purchase_rejects_self_purchase_witness :
    purchase settleStore exEnv 1 1 =
      ⟨.errorRedirect "You cannot purchase your own listing." "marketplace",
        false⟩ :=
  purchase_rejects_self_purchase settleStore exEnv 1 1
    ⟨1, 1, "1 year", "Tulare", 30, 10, "active"⟩ rfl rfl

/-- Claim C6: when the listing's seller has no linked payment account, or
the live account query does not report charge capability (it errors or
returns `charges_enabled = false`), `purchase` flashes an error and
redirects, and the checkout-session API is never invoked. -/
theorem purchase_rejects_unactivated_seller (s : Store) (env : StripeEnv)
    (lid bid : Nat) (l : Listing) (seller : User)
    (hfind : findListing s lid = some l)
    (hseller : findUser s l.seller_id = some seller)
    (hacct : ∀ a, seller.stripe_account_id = some a → env.accounts a ≠ some true) :
    (∃ m d, (purchase s env lid bid).result = PurchaseResult.errorRedirect m d) ∧
      (purchase s env lid bid).checkoutApiCalled = false := by
  by_cases hself : (l.seller_id == bid) = true
  · have hv : purchase s env lid bid =
        ⟨.errorRedirect "You cannot purchase your own listing." "marketplace",
          false⟩ := by
      simp [purchase, hfind, hself]
    rw [hv]; exact ⟨⟨_, _, rfl⟩, rfl⟩
  · rcases hsa : seller.stripe_account_id with _ | a
    · have hv : purchase s env lid bid =
          ⟨.errorRedirect "This seller has not yet set up to receive payments."
            "marketplace", false⟩ := by
        simp [purchase, hfind, hself, hseller, hsa]
      rw [hv]; exact ⟨⟨_, _, rfl⟩, rfl⟩
    · rcases hacc : env.accounts a with _ | b
      · have hv : purchase s env lid bid =
            ⟨.errorRedirect "There was an issue verifying the seller account."
              "marketplace", false⟩ := by
          simp [purchase, hfind, hself, hseller, hsa, hacc]
        rw [hv]; exact ⟨⟨_, _, rfl⟩, rfl⟩
      · have hb : b = false := by
          cases b
          · rfl
          · exact absurd hacc (hacct a hsa)
        subst hb
        have hv : purchase s env lid bid =
            ⟨.errorRedirect
              "This seller has not completed their Stripe setup and cannot receive payments yet."
              "marketplace", false⟩ := by
          simp [purchase, hfind, hself, hseller, hsa, hacc]
        rw [hv]; exact ⟨⟨_, _, rfl⟩, rfl⟩

/-- Witness for C6: a buyer attempting to purchase Carol's listing while
Carol has no linked payment account. -/
theorem purchase_rejects_unactivated_seller_witness :
    (∃ m d, (purchase noAcctStore exEnv 1 2).result =
        PurchaseResult.errorRedirect m d) ∧
      (purchase noAcctStore exEnv 1 2).checkoutApiCalled = false :=
  purchase_rejects_unactivated_seller noAcctStore exEnv 1 2
    ⟨1, 3, "1 year", "Tulare", 30, 10, "active"⟩ carol rfl rfl
    (fun _ ha => by simp [carol] at ha)

/-- Claim C7: with unit price 100.00 and quantity 2.5 acre-feet the purchase
handler's binary64 computation yields a total of 25000 minor currency units,
and the 3.5% application fee on that total is 875 minor units. -/
theorem purchase_price_computation :
    total_price_cents 100 (5 / 2) = 25000 ∧ application_fee_cents 25000 = 875 :=
  ⟨total_price_cents_eval, application_fee_cents_eval⟩

/-- Claim C8: for a logged-in caller, edit and delete on a listing id the
caller does not own produce exactly the outcome (same flashed message, same
redirect, and for delete the same resulting store) they produce on a
listing id that matches no row at all: the response does not reveal whether
the listing exists. -/
theorem edit_delete_no_existence_leak (s : Store) (u lid lid' : Nat)
    (hnotowned : ∀ l ∈ s.listings, l.id = lid → l.seller_id ≠ u)
    (hmissing : ∀ l ∈ s.listings, l.id ≠ lid') :
    edit_listing s u lid = edit_listing s u lid' ∧
      delete_listing s u lid = delete_listing s u lid' := by
  have hp : ∀ l ∈ s.listings, ¬((l.id == lid && l.seller_id == u) = true) := by
    intro l hl h
    simp only [Bool.and_eq_true, beq_iff_eq] at h
    exact hnotowned l hl h.1 h.2
  have hp' : ∀ l ∈ s.listings, ¬((l.id == lid' && l.seller_id == u) = true) := by
    intro l hl h
    simp only [Bool.and_eq_true, beq_iff_eq] at h
    exact hmissing l hl h.1
  have h1 : findOwnedListing s lid u = none :=
    List.find?_eq_none.mpr hp
  have h2 : findOwnedListing s lid' u = none :=
    List.find?_eq_none.mpr hp'
  have hf1 : s.listings.filter (fun l => !(l.id == lid && l.seller_id == u)) =
      s.listings :=
    List.filter_eq_self.mpr (fun l hl => by
      simp only [Bool.not_eq_true']
      exact Bool.not_eq_true _ ▸ Bool.eq_false_iff.mpr (hp l hl))
  have hf2 : s.listings.filter (fun l => !(l.id == lid' && l.seller_id == u)) =
      s.listings :=
    List.filter_eq_self.mpr (fun l hl => by
      simp only [Bool.not_eq_true']
      exact Bool.not_eq_true _ ▸ Bool.eq_false_iff.mpr (hp' l hl))
  constructor
  · rw [edit_listing, edit_listing, h1, h2]
  · rw [delete_listing, delete_listing, hf1, hf2]

/-- Witness for C8: caller Alice (id 1) probing listing 2 (owned by Bob)
and the nonexistent listing 99 observes identical outcomes. -/
theorem edit_delete_no_existence_leak_witness :
    edit_listing ownershipStore 1 2 = edit_listing ownershipStore 1 99 ∧
      delete_listing ownershipStore 1 2 = delete_listing ownershipStore 1 99 :=
  edit_delete_no_existence_leak ownershipStore 1 2 99 (by decide) (by decide)

/-- Claim C9 (counterexample): the telemetry fetch does not filter the
series for the latest valid reading — it only inspects the last element.
On a series whose last element is the `-9999` sentinel but whose previous
element is a valid reading, the code returns nothing while the claimed
behaviour returns the earlier valid reading. -/
theorem telemetry_claim_counterexample :
    get_success_lake_data (some exSeries) = none ∧
      claimedLakeData (some exSeries) = some (some "2024-01-01", 500) := by
  exact ⟨by decide, by decide⟩

/-- Claim C9 (amended): the telemetry fetch returns a reading exactly when
the upstream call succeeded and the last element of the returned series
carries a value above the `-9999` sentinel, in which case it returns that
element's date and value; in every other case — timeout or upstream error,
empty series, or a sentinel/absent value in the last element — it returns
nothing rather than raising. -/
theorem telemetry_last_reading_characterization (resp : Option (List Reading))
    (p : Option String × Int) :
    get_success_lake_data resp = some p ↔
      ∃ data latest, resp = some data ∧ data.getLast? = some latest ∧
        latest.value = some p.2 ∧ p.2 > -9999 ∧ latest.date = p.1 := by
  constructor
  · intro h
    match resp with
    | none => simp [get_success_lake_data] at h
    | some data =>
      match hlast : data.getLast? with
      | none => simp [get_success_lake_data, hlast] at h
      | some latest =>
        match hval : latest.value with
        | none => simp [get_success_lake_data, hlast, hval] at h
        | some v =>
          by_cases hv : v > -9999
          · simp only [get_success_lake_data, hlast, hval, if_pos hv,
              Option.some_inj] at h
            exact ⟨data, latest, rfl, hlast, by rw [hval, ← h], by rw [← h]; exact hv,
              by rw [← h]⟩
          · simp [get_success_lake_data, hlast, hval, hv] at h
  · rintro ⟨data, latest, rfl, hlast, hval, hv, hdate⟩
    simp [get_success_lake_data, hlast, hval, hv, hdate]

/-- Claim C10: invoking `purchase` with a listing id matching no row does
not produce a flashed-error-and-redirect outcome: the compound guard
`if listing and listing['seller_id'] == buyer_id` is skipped for a missing
listing and the very next statement dereferences `None`, an unhandled
`TypeError` surfacing as a server error, before any payment-platform call. -/
theorem purchase_missing_listing_crashes (s : Store) (env : StripeEnv)
    (lid bid : Nat) (h : findListing s lid = none) :
    purchase s env lid bid = ⟨PurchaseResult.crash, false⟩ := by
  simp [purchase, h]

/-- Witness for C10: purchasing the nonexistent listing 7 on an empty store. -/
theorem purchase_missing_listing_crashes_witness :
    purchase emptyStore exEnv 7 1 = ⟨PurchaseResult.crash, false⟩ :=
  purchase_missing_listing_crashes emptyStore exEnv 7 1 rfl

end AgriWater
